import Mathlib

/-!
Shallow embedding of the monitoring subsystem of the repository
(`server-c-monitoring/src/agents/agent_6_watcher.py`,
`agent_7_executor.py`, `agent_8_sanity_flag.py`) and proofs about it.

Modelling conventions:
- Python dict-shaped event records become a single structure with all
  optional fields; a missing string field is `""` (Python `.get(k, "")`
  and truthiness tests make this equivalent for every use in the source).
- A `datetime` instant is modelled as `Int` seconds; `dateutil.parser.parse`
  is an arbitrary parameter `parse : String → Option Int` (failure = `none`),
  `datetime.isoformat` an arbitrary parameter `iso : Int → String`, and
  `datetime.now()` an arbitrary parameter `now : Int`, so every theorem holds
  for every choice of these externals.
- Python float division is modelled exactly over `ℚ`.
- Python string comparison (code-point lexicographic) is `strLe`/`strLt`.
- A Python `TypeError` raised by `sorted`/`min`/`max` over keys of mixed
  types (datetime vs str) is modelled as `Except.error ()`; with keys of a
  single type these operations are total stable sorts / first-extremum scans.
-/

namespace Monitoring

/-- A timestamp value as stored on an event record: a datetime (Int seconds)
or a raw string. A record with no timestamp key carries `Option.none`. -/
inductive TimeVal where
  | dt (t : Int)
  | str (s : String)
deriving DecidableEq

/-- Structured metadata with the fields the source reads from it. -/
structure MetaObj where
  filePath : Option String := none
  fileName : Option String := none
  isDirectory : Bool := false
  newName : Option String := none
  terminalName : Option String := none
  command : Option String := none
deriving DecidableEq

/-- Metadata as stored on a record: structured, or double-encoded as a
string that must be JSON-parsed before field access. -/
inductive MetaVal where
  | obj (m : MetaObj)
  | enc (s : String)
deriving DecidableEq

/-- One event record (interaction, file operation or terminal event).
Missing string fields are `""`; a missing timestamp is `none`. -/
structure Event where
  event_type : String := ""
  timestamp : Option TimeVal := none
  prompt_text : String := ""
  code_snippet : String := ""
  response_text : String := ""
  metadata : MetaVal := .obj {}
deriving DecidableEq

/-- One submission record; `score` defaults to 0 when missing. -/
structure Submission where
  code : String := ""
  score : Int := 0
deriving DecidableEq

/-- A detected violation. -/
structure Violation where
  severity : String
  type : String
  description : String
  timestamp : String
deriving DecidableEq

/-- A red flag finding. -/
structure RedFlag where
  type : String
  description : String
  severity : String
deriving DecidableEq

/-- A timing anomaly. -/
structure Anomaly where
  type : String
  description : String
  severity : String
deriving DecidableEq

/-- One entry of the merged timeline. -/
structure TimelineEntry where
  type : String
  timestamp : String
  description : String
deriving DecidableEq

/-- One named sanity check. -/
structure SanityCheck where
  check : String
  status : String
  message : String
deriving DecidableEq

/-- Result of the plagiarism analysis. -/
structure PlagiarismAnalysis where
  suspicious : Bool
  patterns : List String
  confidence : Nat
deriving DecidableEq

/-! ### String helpers (Python `in`, `.lower()`, comparison) -/

/-- Bool test that the first char list is a prefix of the second. -/
def charsPrefixOf : List Char → List Char → Bool
  | [], _ => true
  | _ :: _, [] => false
  | a :: as, b :: bs => a == b && charsPrefixOf as bs

/-- Bool test that `needle` occurs contiguously inside `hay`. -/
def charsContain (needle : List Char) : List Char → Bool
  | [] => needle == []
  | c :: rest => charsPrefixOf needle (c :: rest) || charsContain needle rest

/-- Python `needle in hay` on strings: contiguous substring test. -/
def pyIn (needle hay : String) : Bool := charsContain needle.data hay.data

/-- Python `s.lower()` (case folding over the char list). -/
def lower (s : String) : String := String.mk (s.data.map Char.toLower)

/-- Code-point lexicographic `≤` on char lists (Python string compare). -/
def lexLe : List Char → List Char → Bool
  | [], _ => true
  | _ :: _, [] => false
  | a :: as, b :: bs =>
    if a.val < b.val then true
    else if b.val < a.val then false
    else lexLe as bs

/-- Code-point lexicographic `<` on char lists. -/
def lexLt : List Char → List Char → Bool
  | [], [] => false
  | [], _ :: _ => true
  | _ :: _, [] => false
  | a :: as, b :: bs =>
    if a.val < b.val then true
    else if b.val < a.val then false
    else lexLt as bs

/-- Python `a <= b` on strings. -/
def strLe (a b : String) : Bool := lexLe a.data b.data

/-- Python `a < b` on strings. -/
def strLt (a b : String) : Bool := lexLt a.data b.data

/-! ### Regex model

Every pattern in the source has the shape `w1.*w2.*...*wk` over literal
words; `re.search` succeeds exactly when the words occur in order,
disjointly, somewhere in the text (earliest-occurrence scanning is
complete for such patterns). This model lets `.*` span newlines, which
the source's `.` does not; all texts considered in concrete inputs here
are single-line, where both semantics agree. -/

/-- Drop through the earliest occurrence of `w`, returning the rest of
the text after it; `none` when `w` does not occur. -/
def dropThroughWord (w : List Char) : List Char → Option (List Char)
  | [] => if w == [] then some [] else none
  | c :: rest =>
    if charsPrefixOf w (c :: rest) then some ((c :: rest).drop w.length)
    else dropThroughWord w rest

/-- Match a `w1.*w2.*...*wk` pattern given as its word list. -/
def matchesWords : List String → List Char → Bool
  | [], _ => true
  | w :: ws, text =>
    match dropThroughWord w.data text with
    | some rest => matchesWords ws rest
    | none => false

/-- Python `any(re.search(p, text) for p in patterns)` over such patterns. -/
def matchesAny (patterns : List (List String)) (text : String) : Bool :=
  patterns.any (fun p => matchesWords p (lower text).data)

/-! ### Shared event helpers -/

/-- Event types counted as copy events throughout the source. -/
def isCopyEvent (e : Event) : Bool :=
  e.event_type == "code_copied_from_ai" || e.event_type == "code_copied"

/-- Event types counted as paste events. -/
def isPasteEvent (e : Event) : Bool :=
  e.event_type == "code_pasted_from_ai" || e.event_type == "code_pasted"

/-- Prompt events that carry a truthy `prompt_text`. -/
def isPromptWithText (e : Event) : Bool :=
  e.event_type == "prompt_sent" && e.prompt_text != ""

/-- Python `len(snippet.split("\n"))`. -/
def lineCount (s : String) : Nat := s.data.count '\n' + 1

/-- Normalise stored metadata to a structured object, using the ambient
JSON parser for string-encoded metadata; parse failure yields `{}`. -/
def metaObjOf (parseJson : String → Option MetaObj) : MetaVal → MetaObj
  | .obj m => m
  | .enc s => (parseJson s).getD {}

/-- Python `metadata.get("filePath", "") or metadata.get("fileName", "")`. -/
def filePathOf (m : MetaObj) : String :=
  let fp := m.filePath.getD ""
  if fp == "" then m.fileName.getD "" else fp

/-- Render a stored timestamp the way the source does for violation and
timeline fields: `isoformat()` for datetimes, `str(...)` otherwise, with a
missing timestamp becoming `str("") = ""`. -/
def tsString (iso : Int → String) : Option TimeVal → String
  | some (.dt t) => iso t
  | some (.str s) => s
  | none => ""

/-! ### Watcher agent (agent_6_watcher.py) -/

namespace Watcher

/-- Watch-mode solution-request regex patterns as word sequences. -/
def red_flag_patterns : List (List String) :=
  [["solve", "entire", "problem"], ["write", "complete", "code"],
   ["give", "full", "solution"], ["do", "whole", "thing"]]

/-- Suspicious file-path keywords. -/
def suspicious_files : List String := ["test", "solution", "answer", "cheat"]

/-- Violations for code-copy interactions whose snippet exceeds 50 lines. -/
def largeCopyViolations (iso : Int → String) (interactions : List Event) : List Violation :=
  (interactions.filter isCopyEvent).filterMap (fun e =>
    let lines := lineCount e.code_snippet
    if lines > 50 then
      some { severity := if lines > 100 then "high" else "medium",
             type := "large_code_copy",
             description := "Copied " ++ toString lines ++ " lines of code from AI",
             timestamp := tsString iso e.timestamp }
    else none)

/-- Violations for prompts matching the watch-mode pattern set. -/
def solutionRequestViolations (iso : Int → String) (interactions : List Event) : List Violation :=
  (interactions.filter isPromptWithText).filterMap (fun e =>
    if matchesAny red_flag_patterns e.prompt_text then
      some { severity := "high", type := "solution_request",
             description := "Candidate asked AI to solve the entire problem",
             timestamp := tsString iso e.timestamp }
    else none)

/-- Violations for file operations whose path contains a suspicious keyword. -/
def suspiciousFileViolations (parseJson : String → Option MetaObj) (iso : Int → String)
    (file_operations : List Event) : List Violation :=
  file_operations.filterMap (fun e =>
    let fp := filePathOf (metaObjOf parseJson e.metadata)
    if suspicious_files.any (fun sus => pyIn sus (lower fp)) then
      some { severity := "medium", type := "suspicious_file_operation",
             description := "Suspicious file operation: " ++ fp,
             timestamp := tsString iso e.timestamp }
    else none)

/-- Watch-mode violation detector, appending its three rule families in
source order (terminal events are accepted but unused, as in the source). -/
def detect_violations (parseJson : String → Option MetaObj) (iso : Int → String)
    (interactions file_operations _terminal_events : List Event) : List Violation :=
  largeCopyViolations iso interactions
    ++ solutionRequestViolations iso interactions
    ++ suspiciousFileViolations parseJson iso file_operations

end Watcher

/-- Severity weight used by both risk scorers (missing severity = "low"). -/
def severityWeight (sev : String) : Nat :=
  if sev == "high" then 30 else if sev == "medium" then 15 else 5

/-- Severity-weighted sum of a violation list. -/
def violationWeightSum (violations : List Violation) : Nat :=
  (violations.map (fun v => severityWeight v.severity)).sum

namespace Watcher

/-- Watch-mode risk score: 0 for no violations, else the capped
severity-weighted sum; the interaction list is accepted but unused. -/
def calculate_risk_score (violations : List Violation) (_interactions : List Event) : Nat :=
  if violations.isEmpty then 0
  else min 100 (violations.foldl (fun acc v => acc + severityWeight v.severity) 0)

end Watcher

/-! ### Timestamp coercion and differences (shared by agents 7 and 8) -/

/-- Coerce a stored timestamp to a datetime: datetimes pass through,
strings go through the `dateutil` parse model, anything else fails. -/
def coerceTs (parse : String → Option Int) : Option TimeVal → Option Int
  | some (.dt t) => some t
  | some (.str s) => parse s
  | none => none

/-- Model of `_time_diff`: seconds from the first to the second timestamp, defined
only when both coerce to datetimes and the difference is strictly positive. -/
def time_diff (parse : String → Option Int) (t1 t2 : Option TimeVal) : Option Int :=
  match coerceTs parse t1, coerceTs parse t2 with
  | some a, some b => if b - a > 0 then some (b - a) else none
  | _, _ => none

/-- Model of `_events_close_in_time`: the gap exists and lies strictly between 0
and the threshold (default 30 seconds). -/
def events_close_in_time (parse : String → Option Int) (e1 e2 : Event)
    (threshold_seconds : Int) : Bool :=
  match time_diff parse e1.timestamp e2.timestamp with
  | some d => decide (0 < d) && decide (d < threshold_seconds)
  | none => false

/-- Consecutive gaps of an event list, skipping every pair whose
difference is unavailable (Python `if gap: gaps.append(gap)`). -/
def consecGaps (parse : String → Option Int) : List Event → List Int
  | a :: b :: rest =>
    (match time_diff parse a.timestamp b.timestamp with
     | some g => [g]
     | none => []) ++ consecGaps parse (b :: rest)
  | _ => []

/-! ### Python sorting by timestamp key -/

/-- Sort key of an event: `e.get("timestamp", datetime.now())`. -/
inductive SKey where
  | dt (t : Int)
  | s (v : String)
deriving DecidableEq

/-- The key Python extracts for an event: a stored datetime or string, or
`datetime.now()` when the timestamp is missing. -/
def sortKey (now : Int) (e : Event) : SKey :=
  match e.timestamp with
  | some (.dt t) => .dt t
  | some (.str v) => .s v
  | none => .dt now

/-- Keys of the same Python type compare; mixed types raise `TypeError`. -/
def skeyComparable : SKey → SKey → Bool
  | .dt _, .dt _ => true
  | .s _, .s _ => true
  | _, _ => false

/-- Key `≤`, only meaningful on comparable keys. -/
def skeyLe : SKey → SKey → Bool
  | .dt a, .dt b => a ≤ b
  | .s a, .s b => strLe a b
  | _, _ => false

/-- Key `<`, only meaningful on comparable keys. -/
def skeyLt : SKey → SKey → Bool
  | .dt a, .dt b => a < b
  | .s a, .s b => strLt a b
  | _, _ => false

/-- Stable insertion of an element into a list (before the first element
it compares `≤` to). -/
def pyInsert (le : α → α → Bool) (a : α) : List α → List α
  | [] => [a]
  | b :: l => if le a b then a :: b :: l else b :: pyInsert le a l

/-- Stable ascending sort; Python's `sorted`/`list.sort` is stable, and
every stable sort produces this same output. -/
def pySorted (le : α → α → Bool) : List α → List α
  | [] => []
  | a :: l => pyInsert le a (pySorted le l)

/-- All sort keys of the list are mutually comparable. -/
def tsKeysComparable (now : Int) (events : List Event) : Bool :=
  events.all (fun a => events.all (fun b => skeyComparable (sortKey now a) (sortKey now b)))

/-- Python `sorted(events, key=lambda e: e.get("timestamp", datetime.now()))`:
raises `TypeError` on mixed datetime/str keys, modelled as `Except.error`. -/
def pySortedByTs (now : Int) (events : List Event) : Except Unit (List Event) :=
  if tsKeysComparable now events then
    .ok (pySorted (fun a b => skeyLe (sortKey now a) (sortKey now b)) events)
  else .error ()

/-- Python `min(events, key=...)` on a nonempty list under comparable
keys: linear scan keeping the first minimum. -/
def pyMinByTs (now : Int) : List Event → Option Event
  | [] => none
  | e :: rest =>
    some (rest.foldl (fun best x =>
      if skeyLt (sortKey now x) (sortKey now best) then x else best) e)

/-- Python `max(events, key=...)` on a nonempty list under comparable
keys: linear scan keeping the first maximum. -/
def pyMaxByTs (now : Int) : List Event → Option Event
  | [] => none
  | e :: rest =>
    some (rest.foldl (fun best x =>
      if skeyLt (sortKey now best) (sortKey now x) then x else best) e)

/-! ### Sanity-flag agent (agent_8_sanity_flag.py) -/

namespace SanityFlag

/-- Flag-mode solution-request regex patterns as word sequences. -/
def solution_patterns : List (List String) :=
  [["solve", "entire", "problem"], ["write", "complete", "solution"],
   ["give", "full", "code"], ["do", "whole", "thing"], ["complete", "for", "me"]]

/-- Violations for prompts matching the flag-mode pattern set. -/
def solutionPatternViolations (iso : Int → String) (events : List Event) : List Violation :=
  (events.filter isPromptWithText).filterMap (fun e =>
    if matchesAny solution_patterns e.prompt_text then
      some { severity := "high", type := "solution_request_pattern",
             description := "Candidate requested complete solution",
             timestamp := tsString iso e.timestamp }
    else none)

/-- The excessive-copying violation, emitted when the session holds more
than 5 copy events; its timestamp is `datetime.now().isoformat()`. -/
def excessiveCopyViolations (iso : Int → String) (now : Int) (events : List Event) : List Violation :=
  let copy_events := events.filter isCopyEvent
  if copy_events.length > 5 then
    [{ severity := "high", type := "excessive_copying",
       description := "Excessive code copying: " ++ toString copy_events.length ++ " copy events",
       timestamp := iso now }]
  else []

/-- The suspicious-timing violation, emitted when fewer than 3
modifications co-occur with more than 10 (truthy-text) prompts. -/
def suspiciousTimingViolations (iso : Int → String) (now : Int) (events : List Event) : List Violation :=
  let modifications := events.filter (fun e => e.event_type == "code_modified")
  let prompts := events.filter isPromptWithText
  if modifications.length < 3 && prompts.length > 10 then
    [{ severity := "medium", type := "suspicious_timing",
       description := "Very few modifications compared to prompts (potential copy-paste)",
       timestamp := iso now }]
  else []

/-- Flag-mode violation detector, appending its three rule families in
source order. -/
def detect_violations (iso : Int → String) (now : Int) (events : List Event) : List Violation :=
  solutionPatternViolations iso events
    ++ excessiveCopyViolations iso now events
    ++ suspiciousTimingViolations iso now events

/-- Flag-mode risk score: severity-weighted violation sum, plus 20 when
both copy and modification counts are nonzero with ratio above 2, plus 15
when the prompt count exceeds 20, capped at 100 once at the end. -/
def calculate_risk_score (violations : List Violation) (events : List Event) : Nat :=
  let base1 := violations.foldl (fun acc v => acc + severityWeight v.severity) 0
  let prompts := events.filter (fun e => e.event_type == "prompt_sent")
  let copies := events.filter isCopyEvent
  let modifications := events.filter (fun e => e.event_type == "code_modified")
  let base2 :=
    if modifications.length != 0 && copies.length != 0 then
      if ((copies.length : ℚ) / (modifications.length : ℚ) > 2) then base1 + 20 else base1
    else base1
  let base3 := if prompts.length > 20 then base2 + 15 else base2
  min 100 base3

/-- Model of `_detect_red_flags`: three independent cross-signal checks; the
min/max scan over timestamps raises on mixed-type keys. -/
def detect_red_flags (parse : String → Option Int) (now : Int)
    (events : List Event) (submissions : List Submission) : Except Unit (List RedFlag) :=
  if events.length > 0 && !tsKeysComparable now events then .error ()
  else
    let modifications := events.filter (fun e => e.event_type == "code_modified")
    let flag1 :=
      if !submissions.isEmpty then
        let perfect := submissions.filter (fun s => s.score == 100)
        if !perfect.isEmpty && modifications.length < 3 then
          [{ type := "perfect_solution_no_modifications",
             description := "Perfect solution with minimal code modifications",
             severity := "high" }]
        else []
      else []
    let flag2 :=
      if events.length > 0 then
        match pyMinByTs now events, pyMaxByTs now events with
        | some first_event, some last_event =>
          match time_diff parse first_event.timestamp last_event.timestamp with
          | some d =>
            if d < 300 then
              if modifications.length > 10 then
                [{ type := "rapid_completion",
                   description := "Rapid code completion with many modifications",
                   severity := "medium" }]
              else []
            else []
          | none => []
        | _, _ => []
      else []
    let copies := events.filter isCopyEvent
    let flag3 :=
      if !copies.isEmpty && modifications.length == 0 then
        [{ type := "no_modifications_only_copies",
           description := "No code modifications, only copy-paste operations",
           severity := "high" }]
      else []
    .ok (flag1 ++ flag2 ++ flag3)

/-- The rapid-fire anomaly record. -/
def rapid_fire_anomaly : Anomaly :=
  { type := "rapid_fire_events",
    description := "Events occurring in rapid succession",
    severity := "medium" }

/-- The long-inactivity anomaly record. -/
def long_inactivity_anomaly : Anomaly :=
  { type := "long_inactivity",
    description := "Long periods of inactivity detected",
    severity := "low" }

/-- Model of `_detect_anomalies`: sort the events by timestamp key (raising on
mixed-type keys), compute the usable consecutive gaps, and compare the
mean gap against the 5s and 3600s thresholds. -/
def detect_anomalies (parse : String → Option Int) (now : Int)
    (events : List Event) : Except Unit (List Anomaly) :=
  if events.length < 2 then .ok []
  else
    match pySortedByTs now events with
    | .error e => .error e
    | .ok sorted_events =>
      let gaps := consecGaps parse sorted_events
      if gaps.isEmpty then .ok []
      else
        let avg_gap : ℚ := (gaps.sum : ℚ) / (gaps.length : ℚ)
        if avg_gap < 5 then .ok [rapid_fire_anomaly]
        else if avg_gap > 3600 then .ok [long_inactivity_anomaly]
        else .ok []

/-- The predicate of the inner plagiarism loop: a nonempty copied snippet
occurs verbatim inside a nonempty response text. -/
def copyMatchesResponse (c r : Event) : Bool :=
  c.code_snippet != "" && r.response_text != "" && pyIn c.code_snippet r.response_text

/-- One step of the copy-vs-response plagiarism loop: the first matching
response (if any) marks the analysis suspicious, appends the pattern and
raises the confidence to at least 70. -/
def plagStep (responses : List Event) (a : PlagiarismAnalysis) (c : Event) : PlagiarismAnalysis :=
  match responses.find? (fun r => copyMatchesResponse c r) with
  | some _ =>
    { suspicious := true,
      patterns := a.patterns ++ ["code_matches_ai_response"],
      confidence := max a.confidence 70 }
  | none => a

/-- Model of `_analyze_plagiarism`: duplicate-submission check (confidence 80),
then the copy-vs-response substring check (confidence raised to ≥ 70). -/
def analyze_plagiarism (submissions : List Submission) (events : List Event) : PlagiarismAnalysis :=
  let a0 : PlagiarismAnalysis := { suspicious := false, patterns := [], confidence := 0 }
  let a1 :=
    if submissions.length > 1 then
      let codes := (submissions.map (fun s => s.code)).filter (fun c => c != "")
      if codes.dedup.length < codes.length then
        { suspicious := true, patterns := a0.patterns ++ ["identical_submissions"],
          confidence := 80 }
      else a0
    else a0
  let copies := events.filter isCopyEvent
  let responses := events.filter (fun e => e.event_type == "response_received")
  if !copies.isEmpty && !responses.isEmpty then
    copies.foldl (plagStep responses) a1
  else a1

/-- Model of `_generate_sanity_checks`: always exactly three checks, in order. -/
def generate_sanity_checks (violations : List Violation) (red_flags : List RedFlag)
    (anomalies : List Anomaly) : List SanityCheck :=
  let c1 :=
    if violations.length > 5 then
      { check := "violation_count", status := "failed",
        message := "Too many violations: " ++ toString violations.length }
    else
      { check := "violation_count", status := "passed",
        message := "Violation count acceptable: " ++ toString violations.length }
  let c2 :=
    if !red_flags.isEmpty then
      let highs := red_flags.filter (fun f => f.severity == "high")
      if !highs.isEmpty then
        { check := "red_flags", status := "failed",
          message := toString highs.length ++ " high-severity red flags detected" }
      else
        { check := "red_flags", status := "warning",
          message := toString red_flags.length ++ " red flags detected" }
    else
      { check := "red_flags", status := "passed", message := "No red flags detected" }
  let c3 :=
    if !anomalies.isEmpty then
      { check := "anomalies", status := "warning",
        message := toString anomalies.length ++ " anomalies detected" }
    else
      { check := "anomalies", status := "passed", message := "No anomalies detected" }
  [c1, c2, c3]

end SanityFlag

/-! ### Executor agent (agent_7_executor.py) -/

namespace Executor

/-- Model of `_calculate_behavior_score`: 50 with no interactions or no prompts,
else `min(100, int(modifications/prompts * 50 + 50))`; Python `int()`
truncates, which on this nonnegative value is the floor. -/
def calculate_behavior_score (interactions : List Event) : Int :=
  if interactions.isEmpty then 50
  else
    let prompts := interactions.filter (fun e => e.event_type == "prompt_sent")
    let modifications := interactions.filter (fun e => e.event_type == "code_modified")
    if !prompts.isEmpty then
      min 100 ⌊((modifications.length : ℚ) / (prompts.length : ℚ)) * 50 + 50⌋
    else 50

/-- The first paste event (if any) close in time after a copy event,
Python `next((p for p in paste_events if _events_close_in_time(c, p)), None)`. -/
def findClosePaste (parse : String → Option Int) (paste_events : List Event)
    (c : Event) : Option Event :=
  paste_events.find? (fun p => events_close_in_time parse c p 30)

/-- One recorded copy-to-paste correlation. -/
structure CopyPastePattern where
  copyTimestamp : Option TimeVal
  pasteTimestamp : Option TimeVal
  timeDiff : Option Int
deriving DecidableEq

/-- The copy-to-paste correlation part of `_extract_patterns`. -/
def copy_paste_patterns (parse : String → Option Int) (interactions : List Event) :
    List CopyPastePattern :=
  let paste_events := interactions.filter isPasteEvent
  (interactions.filter isCopyEvent).filterMap (fun c =>
    (findClosePaste parse paste_events c).map (fun p =>
      { copyTimestamp := c.timestamp, pasteTimestamp := p.timestamp,
        timeDiff := time_diff parse c.timestamp p.timestamp }))

end Executor

/-! ### Timeline builder (agent_6_watcher.py) -/

namespace Watcher

/-- Model of `_get_event_description` for interaction events. -/
def get_event_description (e : Event) : String :=
  if e.event_type == "prompt_sent" then
    if e.prompt_text.length > 50 then "Asked: " ++ e.prompt_text.take 50 ++ "..."
    else "Asked: " ++ e.prompt_text
  else if e.event_type == "response_received" then "Received AI response"
  else if isCopyEvent e then
    "Copied code (" ++ toString (lineCount e.code_snippet) ++ " lines)"
  else if e.event_type == "code_modified" then "Modified code"
  else e.event_type

/-- Model of `_get_file_event_description` for file-operation events. -/
def get_file_event_description (parseJson : String → Option MetaObj) (e : Event) : String :=
  let m := metaObjOf parseJson e.metadata
  let file_path := filePathOf m
  if e.event_type == "file_created" then
    "Created " ++ (if m.isDirectory then "folder" else "file") ++ ": " ++ file_path
  else if e.event_type == "file_modified" then "Modified: " ++ file_path
  else if e.event_type == "file_deleted" then
    "Deleted " ++ (if m.isDirectory then "folder" else "file") ++ ": " ++ file_path
  else if e.event_type == "file_renamed" then
    "Renamed: " ++ file_path ++ " → " ++ m.newName.getD ""
  else e.event_type

/-- Model of `_get_terminal_event_description` for terminal events. -/
def get_terminal_event_description (parseJson : String → Option MetaObj) (e : Event) : String :=
  let m := metaObjOf parseJson e.metadata
  if e.event_type == "terminal_spawned" then
    "New terminal: " ++ m.terminalName.getD "Terminal"
  else if e.event_type == "command_executed" then
    "Ran: " ++ m.command.getD "command"
  else e.event_type

/-- Map a list of events to timeline entries with a given describer. -/
def timelineOf (iso : Int → String) (describe : Event → String)
    (events : List Event) : List TimelineEntry :=
  events.map (fun e =>
    { type := e.event_type, timestamp := tsString iso e.timestamp,
      description := describe e })

/-- Model of `_build_timeline`: concatenate the three entry lists, then stably
sort ascending by the timestamp string. -/
def build_timeline (parseJson : String → Option MetaObj) (iso : Int → String)
    (interactions file_operations terminal_events : List Event) : List TimelineEntry :=
  pySorted (fun a b => strLe a.timestamp b.timestamp)
    (timelineOf iso get_event_description interactions
      ++ timelineOf iso (get_file_event_description parseJson) file_operations
      ++ timelineOf iso (get_terminal_event_description parseJson) terminal_events)

end Watcher

/-! ### Concrete inputs used in closed theorems -/

/-- A parse model under which no string is a valid timestamp. -/
def parseNone : String → Option Int := fun _ => none

/-- A rendering model for datetimes (its output never matters below). -/
def isoEmpty : Int → String := fun _ => ""

/-- A JSON-parse model under which no metadata string parses. -/
def parseJsonNone : String → Option MetaObj := fun _ => none

/-- A prompt event with truthy prompt text. -/
def promptEv : Event := { event_type := "prompt_sent", prompt_text := "hi" }

/-- A modification event. -/
def modEv : Event := { event_type := "code_modified" }

/-- 25 prompt events and no modifications. -/
def ex25 : List Event := List.replicate 25 promptEv

/-- Three prompts and one modification: the ratio 1/3 makes truncation
and rounding differ. -/
def exBehavior : List Event := [promptEv, promptEv, promptEv, modEv]

/-- A 60-line code snippet (59 newlines). -/
def bigSnippet : String := String.mk (List.replicate 59 '\n')

/-- A copy interaction with a 60-line snippet. -/
def bigCopyEv : Event := { event_type := "code_copied", code_snippet := bigSnippet }

/-- An event with an unparsable string timestamp. -/
def strTsEv : Event := { event_type := "prompt_sent", timestamp := some (.str "not a timestamp") }

/-- An event with no timestamp at all (its sort key is `datetime.now()`). -/
def noTsEv : Event := { event_type := "code_modified" }

/-- Two events with string timestamps (homogeneous sort keys). -/
def anomEv1 : Event := { event_type := "prompt_sent", timestamp := some (.str "ts-a") }

/-- Companion event to `anomEv1`. -/
def anomEv2 : Event := { event_type := "code_modified", timestamp := some (.str "ts-b") }

/-- A submission with nonempty code. -/
def exSubA : Submission := { code := "print(42)", score := 0 }

/-- A copy event at datetime 0. -/
def copyEvW : Event := { event_type := "code_copied", timestamp := some (.dt 0) }

/-- A paste event 10 seconds after `copyEvW`. -/
def pasteEvW : Event := { event_type := "code_pasted", timestamp := some (.dt 10) }

/-- The C7 claim's own behavior-score formula, stated with rounding as the
spec words it, for comparison with the implementation's truncation. -/
def behavior_score_claim (interactions : List Event) : Int :=
  if interactions.isEmpty then 50
  else
    let prompts := interactions.filter (fun e => e.event_type == "prompt_sent")
    let modifications := interactions.filter (fun e => e.event_type == "code_modified")
    if !prompts.isEmpty then
      min 100 (round (((modifications.length : ℚ) / (prompts.length : ℚ)) * 50 + 50))
    else 50

/-! ### Helper lemmas -/

theorem violationWeightSum_cons (v : Violation) (t : List Violation) :
    violationWeightSum (v :: t) = severityWeight v.severity + violationWeightSum t := by
  simp [violationWeightSum]

theorem foldl_severity_add (violations : List Violation) (n : Nat) :
    violations.foldl (fun acc v => acc + severityWeight v.severity) n
      = n + violationWeightSum violations := by
  induction violations generalizing n with
  | nil => simp [violationWeightSum]
  | cons v t ih => simp [violationWeightSum_cons, ih]; omega

theorem filter_isEmpty_eq_not_any (l : List α) (p : α → Bool) :
    (l.filter p).isEmpty = !(l.any p) := by
  induction l with
  | nil => rfl
  | cons a t ih => by_cases h : p a <;> simp [List.filter_cons, h, ih]

/-! ### C1: watch-mode risk score -/

/-- C1: the watch-mode risk score is exactly the capped severity-weighted
sum of its violations (weights high=30, medium=15, else 5), the cap
applied once after summation, and the result always lies in [0,100]
(it is a `Nat`, so nonnegativity is by type). -/
theorem watch_risk_score_spec (violations : List Violation) (interactions : List Event) :
    Watcher.calculate_risk_score violations interactions
        = min 100 (violationWeightSum violations) ∧
    Watcher.calculate_risk_score violations interactions ≤ 100 := by
  have hmain : Watcher.calculate_risk_score violations interactions
      = min 100 (violationWeightSum violations) := by
    unfold Watcher.calculate_risk_score
    cases violations with
    | nil => simp [violationWeightSum]
    | cons v t => simp [foldl_severity_add, violationWeightSum_cons]
  exact ⟨hmain, by rw [hmain]; exact Nat.min_le_left _ _⟩

/-! ### C2: flag-mode risk score -/

/-- C2: the flag-mode risk score is the capped sum of the severity-weighted
violation total, a 20-point bonus when modification and copy counts are
nonzero with copies/modifications above 2, and a 15-point bonus when the
prompt count exceeds 20; moreover 25 truthy prompt events with no
modifications yield exactly one medium `suspicious_timing` violation and a
risk score of 30 = 15 (violation) + 15 (prompt-frequency bonus). -/
theorem flag_risk_score_spec :
    (∀ (violations : List Violation) (events : List Event),
      SanityFlag.calculate_risk_score violations events
        = min 100 (violationWeightSum violations
            + (if (events.filter (fun e => e.event_type == "code_modified")).length ≠ 0 ∧
                  (events.filter isCopyEvent).length ≠ 0 ∧
                  (((events.filter isCopyEvent).length : ℚ)
                      / ((events.filter (fun e => e.event_type == "code_modified")).length : ℚ) > 2)
               then 20 else 0)
            + (if (events.filter (fun e => e.event_type == "prompt_sent")).length > 20
               then 15 else 0))) ∧
    (SanityFlag.detect_violations isoEmpty 0 ex25).map (fun v => (v.type, v.severity))
        = [("suspicious_timing", "medium")] ∧
    SanityFlag.calculate_risk_score (SanityFlag.detect_violations isoEmpty 0 ex25) ex25 = 30 := by
  refine ⟨?_, by decide, by decide⟩
  intro violations events
  unfold SanityFlag.calculate_risk_score
  simp only [foldl_severity_add, Nat.zero_add]
  by_cases hm : (events.filter (fun e => e.event_type == "code_modified")).length = 0
  · by_cases hp : (events.filter (fun e => e.event_type == "prompt_sent")).length > 20 <;>
      simp [hm, hp]
  · by_cases hc : (events.filter isCopyEvent).length = 0
    · by_cases hp : (events.filter (fun e => e.event_type == "prompt_sent")).length > 20 <;>
        simp [hm, hc, hp]
    · by_cases hr : (((events.filter isCopyEvent).length : ℚ)
          / ((events.filter (fun e => e.event_type == "code_modified")).length : ℚ) > 2)
      · by_cases hp : (events.filter (fun e => e.event_type == "prompt_sent")).length > 20 <;>
          simp [hm, hc, hr, hp]
      · by_cases hp : (events.filter (fun e => e.event_type == "prompt_sent")).length > 20 <;>
          simp [hm, hc, hr, hp]

/-! ### C10: sanity-check aggregation -/

/-- C10: the aggregator returns exactly three checks, always named
`violation_count`, `red_flags`, `anomalies` in that order, each status in
{passed, warning, failed}; `red_flags` fails exactly when a high-severity
flag exists, warns exactly when flags exist but none is high, else passes. -/
theorem sanity_checks_spec (violations : List Violation) (red_flags : List RedFlag)
    (anomalies : List Anomaly) :
    (SanityFlag.generate_sanity_checks violations red_flags anomalies).map
        (fun c => (c.check, c.status))
      = [("violation_count", if violations.length > 5 then "failed" else "passed"),
         ("red_flags",
           if red_flags.any (fun f => f.severity == "high") then "failed"
           else if red_flags.isEmpty then "passed" else "warning"),
         ("anomalies", if anomalies.isEmpty then "passed" else "warning")] ∧
    (SanityFlag.generate_sanity_checks violations red_flags anomalies).all
        (fun c => ["passed", "warning", "failed"].contains c.status) = true := by
  unfold SanityFlag.generate_sanity_checks
  have hred := filter_isEmpty_eq_not_any red_flags (fun f => f.severity == "high")
  cases red_flags with
  | nil =>
    by_cases h1 : violations.length > 5 <;>
      by_cases h4 : anomalies.isEmpty <;>
      · constructor
        · simp [h1, h4]
        · simp only [List.all_cons, List.all_nil, h1, h4, if_true, if_false]
          simp [h1, h4]
  | cons f fs =>
    by_cases h3 : (f :: fs).any (fun g => g.severity == "high")
    · have hfilter : ¬ ((f :: fs).filter (fun g => g.severity == "high")).isEmpty = true := by
        rw [filter_isEmpty_eq_not_any]; simp [h3]
      by_cases h1 : violations.length > 5 <;>
        by_cases h4 : anomalies.isEmpty <;>
        · constructor
          · simp [h1, h3, h4, hfilter]
          · simp only [List.all_cons, List.all_nil, h1, h4, hfilter, if_true, if_false]
            simp [h1, h4, hfilter]
    · have hfilter : ((f :: fs).filter (fun g => g.severity == "high")).isEmpty = true := by
        rw [filter_isEmpty_eq_not_any]; simp [h3]
      by_cases h1 : violations.length > 5 <;>
        by_cases h4 : anomalies.isEmpty <;>
        · constructor
          · simp [h1, h3, h4, hfilter]
          · simp only [List.all_cons, List.all_nil, h1, h4, hfilter, if_true, if_false]
            simp [h1, h4, hfilter]

/-! ### C4: timeline ordering -/

theorem lexLe_total (a b : List Char) (h : lexLe a b = false) : lexLe b a = true := by
  induction a generalizing b with
  | nil => simp [lexLe] at h
  | cons x xs ih =>
    cases b with
    | nil => rfl
    | cons y ys =>
      rw [lexLe] at h
      rw [lexLe]
      by_cases h1 : x.val < y.val
      · simp [h1] at h
      · by_cases h2 : y.val < x.val
        · simp [h2]
        · simp [h1, h2] at h
          simp [h1, h2]
          exact ih ys h

theorem strLe_total (a b : String) (h : strLe a b = false) : strLe b a = true :=
  lexLe_total a.data b.data h

theorem chain'_pyInsert {α : Type} (le : α → α → Bool)
    (htot : ∀ a b, le a b = false → le b a = true) (a : α) :
    ∀ l, List.Chain' (fun x y => le x y = true) l →
      List.Chain' (fun x y => le x y = true) (pyInsert le a l)
  | [], _ => by simp [pyInsert]
  | b :: l, h => by
    rw [pyInsert]
    by_cases hab : le a b = true
    · rw [if_pos hab]
      exact List.chain'_cons.mpr ⟨hab, h⟩
    · have hfalse : le a b = false := by revert hab; cases le a b <;> simp
      have hba : le b a = true := htot a b hfalse
      rw [if_neg hab]
      refine List.chain'_cons'.mpr ⟨?_, chain'_pyInsert le htot a l h.tail⟩
      intro y hy
      cases l with
      | nil =>
        simp [pyInsert] at hy
        subst hy
        exact hba
      | cons c l' =>
        rw [pyInsert] at hy
        by_cases hac : le a c = true
        · rw [if_pos hac] at hy
          simp at hy
          subst hy
          exact hba
        · rw [if_neg hac] at hy
          simp at hy
          subst hy
          exact (List.chain'_cons.mp h).1

theorem chain'_pySorted {α : Type} (le : α → α → Bool)
    (htot : ∀ a b, le a b = false → le b a = true) :
    ∀ l, List.Chain' (fun x y => le x y = true) (pySorted le l)
  | [] => List.chain'_nil
  | a :: l => chain'_pyInsert le htot a _ (chain'_pySorted le htot l)

/-- C4: for every combination of interaction, file-operation and
terminal-event lists, every pair of adjacent timeline entries is ordered
by the Python string comparison on their timestamp fields. -/
theorem build_timeline_sorted (parseJson : String → Option MetaObj) (iso : Int → String)
    (interactions file_operations terminal_events : List Event) :
    List.Chain' (fun a b : TimelineEntry => strLe a.timestamp b.timestamp = true)
      (Watcher.build_timeline parseJson iso interactions file_operations terminal_events) :=
  chain'_pySorted (fun a b : TimelineEntry => strLe a.timestamp b.timestamp)
    (fun a b h => strLe_total a.timestamp b.timestamp h) _

/-! ### C7: behavior score -/

/-- C7 amended: the behavior score is 50 when there are no `prompt_sent`
interactions (in particular when there are no interactions), else
`min(100, ⌊modifications/prompts * 50 + 50⌋)` — the implementation
truncates with `int()`, it does not round. -/
theorem behavior_score_spec (interactions : List Event) :
    Executor.calculate_behavior_score interactions
      = if (interactions.filter (fun e => e.event_type == "prompt_sent")).isEmpty then 50
        else min 100 ⌊(((interactions.filter (fun e => e.event_type == "code_modified")).length : ℚ)
              / ((interactions.filter (fun e => e.event_type == "prompt_sent")).length : ℚ)) * 50 + 50⌋ := by
  unfold Executor.calculate_behavior_score
  by_cases hi : interactions.isEmpty
  · have h0 : interactions = [] := List.isEmpty_iff.mp hi
    subst h0
    simp
  · by_cases hp : (interactions.filter (fun e => e.event_type == "prompt_sent")).isEmpty <;>
      simp [hi, hp]

/-- C7 counterexample: on three prompts and one modification the
implementation computes `int(1/3 * 50 + 50) = 66`, while the claim's
`round` formula yields 67, so the claim as stated is false. -/
theorem behavior_score_counterexample :
    Executor.calculate_behavior_score exBehavior ≠ behavior_score_claim exBehavior ∧
    Executor.calculate_behavior_score exBehavior = 66 ∧
    behavior_score_claim exBehavior = 67 := by
  have hp : (exBehavior.filter (fun e => e.event_type == "prompt_sent")).length = 3 := rfl
  have hm : (exBehavior.filter (fun e => e.event_type == "code_modified")).length = 1 := rfl
  have hpe : (exBehavior.filter (fun e => e.event_type == "prompt_sent")).isEmpty = false := rfl
  have hfloor : ⌊(200 : ℚ) / 3⌋ = 66 := by
    rw [Int.floor_eq_iff] <;> norm_num
  have hround : round ((200 : ℚ) / 3) = 67 := by
    rw [round_eq, Int.floor_eq_iff] <;> norm_num
  have h1 : Executor.calculate_behavior_score exBehavior = 66 := by
    have hstep : Executor.calculate_behavior_score exBehavior
        = min 100 ⌊(((1 : ℕ) : ℚ)) / (((3 : ℕ) : ℚ)) * 50 + 50⌋ := rfl
    rw [hstep, show ((((1 : ℕ) : ℚ)) / (((3 : ℕ) : ℚ)) * 50 + 50) = 200 / 3 by norm_num,
      hfloor]
    rfl

  have h2 : behavior_score_claim exBehavior = 67 := by
    have hstep : behavior_score_claim exBehavior
        = min 100 (round ((((1 : ℕ) : ℚ)) / (((3 : ℕ) : ℚ)) * 50 + 50)) := rfl
    rw [hstep, show ((((1 : ℕ) : ℚ)) / (((3 : ℕ) : ℚ)) * 50 + 50) = 200 / 3 by norm_num,
      hround]
    rfl
  exact ⟨by rw [h1, h2]; decide, h1, h2⟩

/-! ### C3: flag-mode rule set vs watch-mode rule set -/

theorem solutionPattern_type (iso : Int → String) (events : List Event) (v : Violation)
    (hv : v ∈ SanityFlag.solutionPatternViolations iso events) :
    v.type = "solution_request_pattern" ∧ v.severity = "high" := by
  unfold SanityFlag.solutionPatternViolations at hv
  rcases List.mem_filterMap.mp hv with ⟨e, _, hf⟩
  by_cases hm : matchesAny SanityFlag.solution_patterns e.prompt_text
  · rw [if_pos hm] at hf
    injection hf with hf
    subst hf
    exact ⟨rfl, rfl⟩
  · rw [if_neg hm] at hf
    exact absurd hf (by simp)

theorem excessiveCopy_mem (iso : Int → String) (now : Int) (events : List Event) (v : Violation)
    (hv : v ∈ SanityFlag.excessiveCopyViolations iso now events) :
    v.type = "excessive_copying" := by
  simp only [SanityFlag.excessiveCopyViolations] at hv
  by_cases hc : (events.filter isCopyEvent).length > 5
  · rw [if_pos hc] at hv
    simp at hv
    subst hv
    rfl
  · rw [if_neg hc] at hv
    simp at hv

theorem suspiciousTiming_mem (iso : Int → String) (now : Int) (events : List Event) (v : Violation)
    (hv : v ∈ SanityFlag.suspiciousTimingViolations iso now events) :
    v.type = "suspicious_timing" := by
  simp only [SanityFlag.suspiciousTimingViolations] at hv
  split at hv
  · simp at hv
    subst hv
    rfl
  · simp at hv

theorem any_excessive_eq (iso : Int → String) (now : Int) (events : List Event) (t : String) :
    (SanityFlag.excessiveCopyViolations iso now events).any (fun v => v.type == t)
      = (decide ((events.filter isCopyEvent).length > 5) && ("excessive_copying" == t)) := by
  simp only [SanityFlag.excessiveCopyViolations]
  by_cases hc : (events.filter isCopyEvent).length > 5 <;> simp [hc]

theorem any_timing_eq (iso : Int → String) (now : Int) (events : List Event) (t : String) :
    (SanityFlag.suspiciousTimingViolations iso now events).any (fun v => v.type == t)
      = (decide ((events.filter (fun e => e.event_type == "code_modified")).length < 3
                  ∧ (events.filter isPromptWithText).length > 10) && ("suspicious_timing" == t)) := by
  simp only [SanityFlag.suspiciousTimingViolations]
  by_cases h1 : (events.filter (fun e => e.event_type == "code_modified")).length < 3 <;>
    by_cases h2 : (events.filter isPromptWithText).length > 10 <;>
    simp [h1, h2]

theorem any_solutionPattern_false (iso : Int → String) (events : List Event) (t : String)
    (hne : ("solution_request_pattern" == t) = false) :
    (SanityFlag.solutionPatternViolations iso events).any (fun v => v.type == t) = false := by
  rw [List.any_eq_false]
  intro v hv
  simp [(solutionPattern_type iso events v hv).1, hne]

theorem any_solutionPattern_eq (iso : Int → String) (events : List Event) :
    (SanityFlag.solutionPatternViolations iso events).any
        (fun v => v.type == "solution_request_pattern")
      = (events.filter isPromptWithText).any
          (fun e => matchesAny SanityFlag.solution_patterns e.prompt_text) := by
  unfold SanityFlag.solutionPatternViolations
  induction events.filter isPromptWithText with
  | nil => rfl
  | cons e l ih =>
    rw [List.filterMap_cons, List.any_cons]
    by_cases hm : matchesAny SanityFlag.solution_patterns e.prompt_text
    · simp [hm]
    · simp [hm, ih]

theorem any_detect_eq (iso : Int → String) (now : Int) (events : List Event)
    (p : Violation → Bool) :
    (SanityFlag.detect_violations iso now events).any p
      = ((SanityFlag.solutionPatternViolations iso events).any p
         || (SanityFlag.excessiveCopyViolations iso now events).any p
         || (SanityFlag.suspiciousTimingViolations iso now events).any p) := by
  unfold SanityFlag.detect_violations
  simp [List.any_append, Bool.or_assoc]

/-- C3 counterexample: a single 60-line copy interaction yields a
watch-mode `large_code_copy` violation, while the flag-mode detector run
by `flag_sanity_checks` on the same events yields nothing at all, so the
flag-mode rule set is not a superset of the watch-mode rule set. -/
theorem flag_rules_counterexample :
    ¬ (∀ v ∈ Watcher.detect_violations parseJsonNone isoEmpty [bigCopyEv] [] [],
          v ∈ SanityFlag.detect_violations isoEmpty 0 [bigCopyEv]) ∧
    (Watcher.detect_violations parseJsonNone isoEmpty [bigCopyEv] [] []).map (fun v => v.type)
        = ["large_code_copy"] ∧
    SanityFlag.detect_violations isoEmpty 0 [bigCopyEv] = [] := by
  refine ⟨by decide, by decide, by decide⟩

/-- C3 amended: the flag-mode detector used by `flag_sanity_checks` emits
only its own three rule families — every violation it produces has type
`solution_request_pattern`, `excessive_copying` or `suspicious_timing`,
with `excessive_copying` exactly when there are more than 5 copy events,
`suspicious_timing` exactly when fewer than 3 modification events co-occur
with more than 10 truthy prompts, and `solution_request_pattern` exactly
when some truthy prompt matches the extended pattern set; it does not
re-emit the watch-mode rules, so it is not a superset of them. -/
theorem flag_rules_spec (iso : Int → String) (now : Int) (events : List Event) :
    ((SanityFlag.detect_violations iso now events).all
        (fun v => ["solution_request_pattern", "excessive_copying", "suspicious_timing"].contains
          v.type) = true) ∧
    ((SanityFlag.detect_violations iso now events).any
        (fun v => v.type == "excessive_copying") = true
      ↔ (events.filter isCopyEvent).length > 5) ∧
    ((SanityFlag.detect_violations iso now events).any
        (fun v => v.type == "suspicious_timing") = true
      ↔ ((events.filter (fun e => e.event_type == "code_modified")).length < 3
          ∧ (events.filter isPromptWithText).length > 10)) ∧
    ((SanityFlag.detect_violations iso now events).any
        (fun v => v.type == "solution_request_pattern") = true
      ↔ (events.filter isPromptWithText).any
          (fun e => matchesAny SanityFlag.solution_patterns e.prompt_text) = true) := by
  refine ⟨?_, ?_, ?_, ?_⟩
  · rw [List.all_eq_true]
    intro v hv
    unfold SanityFlag.detect_violations at hv
    rcases List.mem_append.mp hv with hv | hv
    · rcases List.mem_append.mp hv with hv | hv
      · simp [(solutionPattern_type iso events v hv).1]
      · simp [excessiveCopy_mem iso now events v hv]
    · simp [suspiciousTiming_mem iso now events v hv]
  · rw [any_detect_eq, any_solutionPattern_false iso events _ (by decide),
      any_excessive_eq, any_timing_eq]
    by_cases hc : (events.filter isCopyEvent).length > 5 <;> simp [hc]
  · rw [any_detect_eq, any_solutionPattern_false iso events _ (by decide),
      any_excessive_eq, any_timing_eq]
    by_cases h1 : (events.filter (fun e => e.event_type == "code_modified")).length < 3 <;>
      by_cases h2 : (events.filter isPromptWithText).length > 10 <;>
      simp [h1, h2]
  · rw [any_detect_eq, any_solutionPattern_eq, any_excessive_eq, any_timing_eq]
    simp

/-! ### C5 and C8: anomaly detection and detector totality -/

theorem detect_anomalies_eq (parse : String → Option Int) (now : Int)
    (events : List Event) (se : List Event)
    (hse : pySortedByTs now events = .ok se) (hlen : ¬ events.length < 2) :
    SanityFlag.detect_anomalies parse now events
      = (if (consecGaps parse se).isEmpty then .ok []
         else if ((consecGaps parse se).sum : ℚ) / ((consecGaps parse se).length : ℚ) < 5 then
            .ok [SanityFlag.rapid_fire_anomaly]
         else if ((consecGaps parse se).sum : ℚ) / ((consecGaps parse se).length : ℚ) > 3600 then
            .ok [SanityFlag.long_inactivity_anomaly]
         else .ok []) := by
  unfold SanityFlag.detect_anomalies
  rw [if_neg hlen, hse]

/-- C5: whenever the anomaly detector returns a result, that result is
empty for fewer than 2 events or no computable gaps, is exactly the one
medium `rapid_fire_events` anomaly when the mean gap over the sorted
events is below 5 seconds, exactly the one low `long_inactivity` anomaly
when the mean exceeds 3600 seconds, empty otherwise, and never contains
both anomalies. -/
theorem detect_anomalies_spec (parse : String → Option Int) (now : Int)
    (events : List Event) (res : List Anomaly)
    (h : SanityFlag.detect_anomalies parse now events = .ok res) :
    (events.length < 2 → res = []) ∧
    (∀ se, pySortedByTs now events = .ok se → 2 ≤ events.length →
       ((consecGaps parse se = [] → res = []) ∧
        (consecGaps parse se ≠ [] →
          ((((consecGaps parse se).sum : ℚ) / ((consecGaps parse se).length : ℚ) < 5 →
              res = [SanityFlag.rapid_fire_anomaly]) ∧
           (((consecGaps parse se).sum : ℚ) / ((consecGaps parse se).length : ℚ) > 3600 →
              res = [SanityFlag.long_inactivity_anomaly]) ∧
           (¬ ((consecGaps parse se).sum : ℚ) / ((consecGaps parse se).length : ℚ) < 5 →
            ¬ ((consecGaps parse se).sum : ℚ) / ((consecGaps parse se).length : ℚ) > 3600 →
              res = []))))) ∧
    ¬ (SanityFlag.rapid_fire_anomaly ∈ res ∧ SanityFlag.long_inactivity_anomaly ∈ res) := by
  by_cases hlen : events.length < 2
  · have hres : res = [] := by
      unfold SanityFlag.detect_anomalies at h
      rw [if_pos hlen] at h
      injection h with h
      exact h.symm
    subst hres
    exact ⟨fun _ => rfl, fun se hse hge => absurd hge (by omega), by simp⟩
  · refine ⟨fun hc => absurd hc hlen, ?_, ?_⟩
    · intro se hse hge
      rw [detect_anomalies_eq parse now events se hse hlen] at h
      constructor
      · intro hgaps
        rw [if_pos (by simp [hgaps])] at h
        injection h with h
        exact h.symm
      · intro hgaps
        rw [if_neg (by simpa using hgaps)] at h
        refine ⟨?_, ?_, ?_⟩
        · intro hlt
          rw [if_pos hlt] at h
          injection h with h
          exact h.symm
        · intro hgt
          rw [if_neg (show ¬ ((consecGaps parse se).sum : ℚ) / ((consecGaps parse se).length : ℚ) < 5
            by intro hlt; linarith)] at h
          rw [if_pos hgt] at h
          injection h with h
          exact h.symm
        · intro hnlt hngt
          rw [if_neg hnlt, if_neg hngt] at h
          injection h with h
          exact h.symm
    · rcases hsort : pySortedByTs now events with e | se
      · unfold SanityFlag.detect_anomalies at h
        rw [if_neg hlen, hsort] at h
        exact absurd h (by simp)
      · rw [detect_anomalies_eq parse now events se hsort hlen] at h
        by_cases h1 : (consecGaps parse se).isEmpty
        · rw [if_pos h1] at h
          injection h with h
          subst h
          simp
        · rw [if_neg h1] at h
          by_cases h2 : ((consecGaps parse se).sum : ℚ) / ((consecGaps parse se).length : ℚ) < 5
          · rw [if_pos h2] at h
            injection h with h
            subst h
            intro hmem
            have := hmem.2
            simp [SanityFlag.rapid_fire_anomaly, SanityFlag.long_inactivity_anomaly] at this
          · rw [if_neg h2] at h
            by_cases h3 : ((consecGaps parse se).sum : ℚ) / ((consecGaps parse se).length : ℚ) > 3600
            · rw [if_pos h3] at h
              injection h with h
              subst h
              intro hmem
              have := hmem.1
              simp [SanityFlag.rapid_fire_anomaly, SanityFlag.long_inactivity_anomaly] at this
            · rw [if_neg h3] at h
              injection h with h
              subst h
              simp

/-- Witness for `detect_anomalies_spec`: two events with homogeneous but
unparsable string timestamps run to completion with no anomalies. -/
theorem detect_anomalies_spec_witness :
    SanityFlag.detect_anomalies parseNone 0 [anomEv1, anomEv2] = .ok [] ∧
    ¬ (SanityFlag.rapid_fire_anomaly ∈ ([] : List Anomaly) ∧
       SanityFlag.long_inactivity_anomaly ∈ ([] : List Anomaly)) :=
  ⟨rfl, (detect_anomalies_spec parseNone 0 [anomEv1, anomEv2] [] rfl).2.2⟩

/-- C8 counterexample: an event list mixing a string timestamp with a
missing one (whose sort key is `datetime.now()`, a datetime) makes both
the anomaly detector and the red-flag detector abort — Python raises
`TypeError` inside `sorted`/`min`/`max` — so the detectors are not total
over events with mixed-type timestamps. -/
theorem detectors_total_counterexample :
    SanityFlag.detect_anomalies parseNone 0 [strTsEv, noTsEv] = .error () ∧
    SanityFlag.detect_red_flags parseNone 0 [strTsEv, noTsEv] [] = .error () :=
  ⟨rfl, rfl⟩

/-- C8 amended: on any event list whose timestamp sort keys are mutually
comparable (all datetimes-or-missing, or all strings), every detector is
total: the anomaly and red-flag detectors return a result, with
unparsable timestamps merely skipped from gap computation, and the other
detectors are total functions by construction. -/
theorem detectors_total_spec (parse : String → Option Int) (now : Int)
    (events : List Event) (submissions : List Submission)
    (h : tsKeysComparable now events = true) :
    (∃ r, SanityFlag.detect_anomalies parse now events = .ok r) ∧
    (∃ r, SanityFlag.detect_red_flags parse now events submissions = .ok r) := by
  constructor
  · by_cases hlen : events.length < 2
    · refine ⟨[], ?_⟩
      unfold SanityFlag.detect_anomalies
      rw [if_pos hlen]
    · have hse : pySortedByTs now events
          = .ok (pySorted (fun a b => skeyLe (sortKey now a) (sortKey now b)) events) := by
        unfold pySortedByTs
        rw [if_pos h]
      rw [detect_anomalies_eq parse now events _ hse hlen]
      split_ifs <;> exact ⟨_, rfl⟩
  · unfold SanityFlag.detect_red_flags
    have hguard : (events.length > 0 && !tsKeysComparable now events) = false := by
      rw [h]
      simp
    rw [if_neg (by rw [hguard]; exact Bool.false_ne_true)]
    exact ⟨_, rfl⟩

/-- Witness for `detectors_total_spec`: both detectors succeed on two
events with homogeneous string timestamps. -/
theorem detectors_total_spec_witness :
    tsKeysComparable 0 [anomEv1, anomEv2] = true ∧
    ((∃ r, SanityFlag.detect_anomalies parseNone 0 [anomEv1, anomEv2] = .ok r) ∧
     (∃ r, SanityFlag.detect_red_flags parseNone 0 [anomEv1, anomEv2] [] = .ok r)) :=
  ⟨by decide, detectors_total_spec parseNone 0 [anomEv1, anomEv2] [] (by decide)⟩

/-! ### C6: plagiarism analysis -/

theorem plagStep_suspicious_mono (responses : List Event) (a : PlagiarismAnalysis) (c : Event)
    (h : a.suspicious = true) : (SanityFlag.plagStep responses a c).suspicious = true := by
  unfold SanityFlag.plagStep
  split <;> simp [h]

theorem plagStep_patterns_mono (responses : List Event) (a : PlagiarismAnalysis) (c : Event)
    (p : String) (h : p ∈ a.patterns) : p ∈ (SanityFlag.plagStep responses a c).patterns := by
  unfold SanityFlag.plagStep
  split <;> simp [h]

theorem foldl_plagStep_suspicious (responses copies : List Event) (a : PlagiarismAnalysis)
    (h : a.suspicious = true) :
    (copies.foldl (SanityFlag.plagStep responses) a).suspicious = true := by
  induction copies generalizing a with
  | nil => exact h
  | cons c t ih => exact ih _ (plagStep_suspicious_mono responses a c h)

theorem foldl_plagStep_patterns (responses copies : List Event) (a : PlagiarismAnalysis)
    (p : String) (h : p ∈ a.patterns) :
    p ∈ (copies.foldl (SanityFlag.plagStep responses) a).patterns := by
  induction copies generalizing a with
  | nil => exact h
  | cons c t ih => exact ih _ (plagStep_patterns_mono responses a c p h)

theorem foldl_plagStep_confidence (responses copies : List Event) (a : PlagiarismAnalysis) :
    (copies.foldl (SanityFlag.plagStep responses) a).confidence
      = if ∃ c ∈ copies, ∃ r ∈ responses, SanityFlag.copyMatchesResponse c r = true
        then max a.confidence 70 else a.confidence := by
  induction copies generalizing a with
  | nil => simp
  | cons c t ih =>
    rw [List.foldl_cons, ih]
    rcases hf : responses.find? (fun r => SanityFlag.copyMatchesResponse c r) with _ | r
    · have hno : ¬ ∃ r ∈ responses, SanityFlag.copyMatchesResponse c r = true := by
        rintro ⟨r, hr, hcr⟩
        have := List.find?_eq_none.mp hf r hr
        simp [hcr] at this
      have hstep : SanityFlag.plagStep responses a c = a := by
        unfold SanityFlag.plagStep
        rw [hf]
      rw [hstep]
      by_cases ht : ∃ c' ∈ t, ∃ r ∈ responses, SanityFlag.copyMatchesResponse c' r = true
      · have hct : ∃ c' ∈ c :: t, ∃ r ∈ responses, SanityFlag.copyMatchesResponse c' r = true := by
          rcases ht with ⟨c', hc', hex⟩
          exact ⟨c', List.mem_cons_of_mem _ hc', hex⟩
        rw [if_pos ht, if_pos hct]
      · have hct : ¬ ∃ c' ∈ c :: t, ∃ r ∈ responses, SanityFlag.copyMatchesResponse c' r = true := by
          rintro ⟨c', hc', hex⟩
          rcases List.mem_cons.mp hc' with rfl | h'
          · exact hno hex
          · exact ht ⟨c', h', hex⟩
        rw [if_neg ht, if_neg hct]
    · have hyes : ∃ r ∈ responses, SanityFlag.copyMatchesResponse c r = true :=
        ⟨r, List.mem_of_find?_eq_some hf, List.find?_some hf⟩
      have hstep : SanityFlag.plagStep responses a c
          = { suspicious := true, patterns := a.patterns ++ ["code_matches_ai_response"],
              confidence := max a.confidence 70 } := by
        unfold SanityFlag.plagStep
        rw [hf]
      rw [hstep]
      rw [if_pos (show ∃ c' ∈ c :: t, ∃ r ∈ responses, SanityFlag.copyMatchesResponse c' r = true
        from ⟨c, List.mem_cons_self c t, hyes⟩)]
      by_cases ht : ∃ c' ∈ t, ∃ r ∈ responses, SanityFlag.copyMatchesResponse c' r = true
      · rw [if_pos ht]
        simp [Nat.max_assoc]
      · rw [if_neg ht]

theorem foldl_plagStep_triggers (responses copies : List Event) (a : PlagiarismAnalysis)
    (h : ∃ c ∈ copies, ∃ r ∈ responses, SanityFlag.copyMatchesResponse c r = true) :
    (copies.foldl (SanityFlag.plagStep responses) a).suspicious = true ∧
    "code_matches_ai_response" ∈ (copies.foldl (SanityFlag.plagStep responses) a).patterns := by
  induction copies generalizing a with
  | nil => simp at h
  | cons c t ih =>
    rw [List.foldl_cons]
    rcases h with ⟨c', hc', hex⟩
    rcases List.mem_cons.mp hc' with rfl | hc't
    · rcases hex with ⟨r, hr, hcr⟩
      rcases hf : responses.find? (fun s => SanityFlag.copyMatchesResponse c' s) with _ | r0
      · have := List.find?_eq_none.mp hf r hr
        simp [hcr] at this
      · have hstep : SanityFlag.plagStep responses a c'
            = { suspicious := true, patterns := a.patterns ++ ["code_matches_ai_response"],
                confidence := max a.confidence 70 } := by
          unfold SanityFlag.plagStep
          rw [hf]
        rw [hstep]
        exact ⟨foldl_plagStep_suspicious responses t _ rfl,
               foldl_plagStep_patterns responses t _ _ (by simp)⟩
    · exact ih _ ⟨c', hc't, hex⟩

theorem analyze_plagiarism_eq (submissions : List Submission) (events : List Event) :
    SanityFlag.analyze_plagiarism submissions events
      = (if !(events.filter isCopyEvent).isEmpty
            && !(events.filter (fun e => e.event_type == "response_received")).isEmpty
         then (events.filter isCopyEvent).foldl
            (SanityFlag.plagStep (events.filter (fun e => e.event_type == "response_received")))
            (if 1 < submissions.length ∧
                ((submissions.map (fun s => s.code)).filter (fun c => c != "")).dedup.length
                  < ((submissions.map (fun s => s.code)).filter (fun c => c != "")).length
             then { suspicious := true, patterns := ["identical_submissions"], confidence := 80 }
             else { suspicious := false, patterns := [], confidence := 0 })
         else (if 1 < submissions.length ∧
                ((submissions.map (fun s => s.code)).filter (fun c => c != "")).dedup.length
                  < ((submissions.map (fun s => s.code)).filter (fun c => c != "")).length
             then { suspicious := true, patterns := ["identical_submissions"], confidence := 80 }
             else { suspicious := false, patterns := [], confidence := 0 })) := by
  unfold SanityFlag.analyze_plagiarism
  by_cases h1 : 1 < submissions.length
  · by_cases h2 : ((submissions.map (fun s => s.code)).filter (fun c => c != "")).dedup.length
        < ((submissions.map (fun s => s.code)).filter (fun c => c != "")).length
    · simp [h1, h2]
    · simp [h1, h2]
  · simp [h1]

theorem duplicate_codes_dedup (submissions : List Submission)
    (h : ∃ pre s mid t post, submissions = pre ++ s :: (mid ++ t :: post) ∧
          s.code = t.code ∧ s.code ≠ "") :
    1 < submissions.length ∧
    ((submissions.map (fun s => s.code)).filter (fun c => c != "")).dedup.length
      < ((submissions.map (fun s => s.code)).filter (fun c => c != "")).length := by
  rcases h with ⟨pre, s, mid, t, post, rfl, hcode, hne⟩
  have hcode' : t.code = s.code := hcode.symm
  have hs' : (s.code != "") = true := by simpa using hne
  have ht' : (t.code != "") = true := by rw [hcode']; exact hs'
  constructor
  · simp [List.length_append]
    omega
  · have key : (((pre ++ s :: (mid ++ t :: post)).map (fun x => x.code)).filter
          (fun c => c != ""))
        = ((pre.map fun x => x.code).filter (fun c => c != ""))
          ++ s.code :: (((mid.map fun x => x.code).filter (fun c => c != ""))
          ++ s.code :: ((post.map fun x => x.code).filter (fun c => c != ""))) := by
      simp [List.map_append, List.filter_append, List.filter_cons, hs', ht', hcode']
    rw [key]
    set codes := ((pre.map fun x => x.code).filter (fun c => c != ""))
        ++ s.code :: (((mid.map fun x => x.code).filter (fun c => c != ""))
        ++ s.code :: ((post.map fun x => x.code).filter (fun c => c != ""))) with hcodes
    have hcount : 2 ≤ codes.count s.code := by
      rw [hcodes]
      simp [List.count_append, List.count_cons]
      omega
    have hnodup : ¬ codes.Nodup := by
      intro hnd
      have := List.nodup_iff_count_le_one.mp hnd s.code
      omega
    have hsub := codes.dedup_sublist
    rcases Nat.lt_or_ge codes.dedup.length codes.length with hlt | hge
    · exact hlt
    · exact absurd ((hsub.eq_of_length (Nat.le_antisymm hsub.length_le hge)) ▸ codes.nodup_dedup)
        hnodup

/-- C6: duplicate nonempty submissions force `suspicious`, the
`identical_submissions` pattern and confidence 80; a nonempty copied
snippet occurring inside a response forces `suspicious`, the
`code_matches_ai_response` pattern and confidence at least 70; and the
final confidence is the maximum of the triggered checks (80 when both
fire), never their sum. -/
theorem analyze_plagiarism_spec (submissions : List Submission) (events : List Event) :
    ((∃ pre s mid t post, submissions = pre ++ s :: (mid ++ t :: post) ∧
        s.code = t.code ∧ s.code ≠ "") →
      ((SanityFlag.analyze_plagiarism submissions events).suspicious = true ∧
       "identical_submissions" ∈ (SanityFlag.analyze_plagiarism submissions events).patterns ∧
       (SanityFlag.analyze_plagiarism submissions events).confidence = 80)) ∧
    ((∃ c ∈ events.filter isCopyEvent,
        ∃ r ∈ events.filter (fun e => e.event_type == "response_received"),
        SanityFlag.copyMatchesResponse c r = true) →
      ((SanityFlag.analyze_plagiarism submissions events).suspicious = true ∧
       "code_matches_ai_response" ∈ (SanityFlag.analyze_plagiarism submissions events).patterns ∧
       70 ≤ (SanityFlag.analyze_plagiarism submissions events).confidence)) ∧
    (SanityFlag.analyze_plagiarism submissions events).confidence
      = max (if 1 < submissions.length ∧
                ((submissions.map (fun s => s.code)).filter (fun c => c != "")).dedup.length
                  < ((submissions.map (fun s => s.code)).filter (fun c => c != "")).length
             then 80 else 0)
            (if ∃ c ∈ events.filter isCopyEvent,
                  ∃ r ∈ events.filter (fun e : Event => e.event_type == "response_received"),
                  SanityFlag.copyMatchesResponse c r = true
             then 70 else 0) := by
  rw [analyze_plagiarism_eq]
  by_cases hguard : (!(events.filter isCopyEvent).isEmpty
      && !(events.filter (fun e => e.event_type == "response_received")).isEmpty) = true
  · rw [if_pos hguard]
    by_cases hid : 1 < submissions.length ∧
        ((submissions.map (fun s => s.code)).filter (fun c => c != "")).dedup.length
          < ((submissions.map (fun s => s.code)).filter (fun c => c != "")).length
    · rw [if_pos hid]
      refine ⟨?_, ?_, ?_⟩
      · intro _
        refine ⟨foldl_plagStep_suspicious _ _ _ rfl,
                foldl_plagStep_patterns _ _ _ _ (by simp), ?_⟩
        rw [foldl_plagStep_confidence]
        split_ifs <;> rfl
      · intro hsub
        refine ⟨foldl_plagStep_suspicious _ _ _ rfl, (foldl_plagStep_triggers _ _ _ hsub).2, ?_⟩
        rw [foldl_plagStep_confidence]
        split_ifs <;> omega
      · rw [foldl_plagStep_confidence, if_pos hid]
        split_ifs <;> rfl
    · rw [if_neg hid]
      refine ⟨fun hdup => absurd (duplicate_codes_dedup submissions hdup) hid, ?_, ?_⟩
      · intro hsub
        refine ⟨(foldl_plagStep_triggers _ _ _ hsub).1, (foldl_plagStep_triggers _ _ _ hsub).2, ?_⟩
        rw [foldl_plagStep_confidence, if_pos hsub]
        decide
      · rw [foldl_plagStep_confidence, if_neg hid]
        split_ifs <;> rfl
  · have hnosub : ¬ ∃ c ∈ events.filter isCopyEvent,
        ∃ r ∈ events.filter (fun e => e.event_type == "response_received"),
        SanityFlag.copyMatchesResponse c r = true := by
      rintro ⟨c, hc, r, hr, _⟩
      apply hguard
      have h1 : (events.filter isCopyEvent).isEmpty = false := by
        cases hval : events.filter isCopyEvent with
        | nil => rw [hval] at hc; simp at hc
        | cons x xs => rfl
      have h2 : (events.filter (fun e => e.event_type == "response_received")).isEmpty
          = false := by
        cases hval : events.filter (fun e => e.event_type == "response_received") with
        | nil => rw [hval] at hr; simp at hr
        | cons x xs => rfl
      rw [h1, h2]
      rfl
    rw [if_neg hguard]
    by_cases hid : 1 < submissions.length ∧
        ((submissions.map (fun s => s.code)).filter (fun c => c != "")).dedup.length
          < ((submissions.map (fun s => s.code)).filter (fun c => c != "")).length
    · rw [if_pos hid]
      exact ⟨fun _ => ⟨rfl, by simp, rfl⟩, fun hsub => absurd hsub hnosub,
             by rw [if_pos hid, if_neg hnosub]; decide⟩
    · rw [if_neg hid]
      exact ⟨fun hdup => absurd (duplicate_codes_dedup submissions hdup) hid,
             fun hsub => absurd hsub hnosub,
             by rw [if_neg hid, if_neg hnosub]; decide⟩

/-- Witness for `analyze_plagiarism_spec`: two identical nonempty
submissions yield a suspicious analysis with confidence 80. -/
theorem analyze_plagiarism_spec_witness :
    (SanityFlag.analyze_plagiarism [exSubA, exSubA] []).suspicious = true ∧
    "identical_submissions" ∈ (SanityFlag.analyze_plagiarism [exSubA, exSubA] []).patterns ∧
    (SanityFlag.analyze_plagiarism [exSubA, exSubA] []).confidence = 80 :=
  (analyze_plagiarism_spec [exSubA, exSubA] []).1
    ⟨[], exSubA, [], exSubA, [], rfl, rfl, by decide⟩

/-! ### C9: time differences and copy-paste pairing -/

/-- C9: the time-difference helper yields a value exactly when both
timestamps coerce to datetimes with the second strictly later; equal or
decreasing pairs are discarded exactly like unparsable pairs, both in
`_time_diff` itself and in consecutive-gap computation; and a copy event
is paired only with a paste event whose gap is strictly between 0 and 30
seconds. -/
theorem time_diff_spec :
    (∀ (parse : String → Option Int) (t1 t2 : Option TimeVal) (d : Int),
        time_diff parse t1 t2 = some d →
        0 < d ∧ ∃ a b, coerceTs parse t1 = some a ∧ coerceTs parse t2 = some b ∧
          a < b ∧ d = b - a) ∧
    (∀ (parse : String → Option Int) (t1 t2 : Option TimeVal) (a b : Int),
        coerceTs parse t1 = some a → coerceTs parse t2 = some b → b ≤ a →
        time_diff parse t1 t2 = none) ∧
    (∀ (parse : String → Option Int) (t1 t2 : Option TimeVal),
        coerceTs parse t1 = none ∨ coerceTs parse t2 = none →
        time_diff parse t1 t2 = none) ∧
    (∀ (parse : String → Option Int) (a b : Event) (rest : List Event),
        time_diff parse a.timestamp b.timestamp = none →
        consecGaps parse (a :: b :: rest) = consecGaps parse (b :: rest)) ∧
    (∀ (parse : String → Option Int) (paste_events : List Event) (c p : Event),
        Executor.findClosePaste parse paste_events c = some p →
        ∃ d, time_diff parse c.timestamp p.timestamp = some d ∧ 0 < d ∧ d < 30) := by
  refine ⟨?_, ?_, ?_, ?_, ?_⟩
  · intro parse t1 t2 d h
    unfold time_diff at h
    rcases h1 : coerceTs parse t1 with _ | a
    · rw [h1] at h
      simp at h
    · rcases h2 : coerceTs parse t2 with _ | b
      · rw [h1, h2] at h
        simp at h
      · rw [h1, h2] at h
        dsimp only at h
        by_cases hpos : b - a > 0
        · rw [if_pos hpos] at h
          injection h with h
          subst h
          exact ⟨hpos, a, b, rfl, rfl, by omega, rfl⟩
        · rw [if_neg hpos] at h
          simp at h
  · intro parse t1 t2 a b h1 h2 hle
    unfold time_diff
    rw [h1, h2]
    simp only
    rw [if_neg (show ¬ b - a > 0 by omega)]
  · intro parse t1 t2 h
    unfold time_diff
    rcases h with h | h
    · rw [h]
    · rcases h1 : coerceTs parse t1 with _ | a
      · rfl
      · rw [h]
  · intro parse a b rest h
    show (match time_diff parse a.timestamp b.timestamp with
          | some g => [g]
          | none => []) ++ consecGaps parse (b :: rest) = consecGaps parse (b :: rest)
    rw [h]
    exact List.nil_append _
  · intro parse paste_events c p h
    unfold Executor.findClosePaste at h
    have hp := List.find?_some h
    unfold events_close_in_time at hp
    rcases hd : time_diff parse c.timestamp p.timestamp with _ | d
    · rw [hd] at hp
      simp at hp
    · rw [hd] at hp
      simp only [Bool.and_eq_true, decide_eq_true_eq] at hp
      exact ⟨d, rfl, hp.1, hp.2⟩

/-- Witness for `time_diff_spec`: a copy at time 0 is paired with the
paste at time 10, whose gap lies strictly between 0 and 30 seconds. -/
theorem time_diff_spec_witness :
    Executor.findClosePaste parseNone [pasteEvW] copyEvW = some pasteEvW ∧
    (∃ d, time_diff parseNone copyEvW.timestamp pasteEvW.timestamp = some d ∧ 0 < d ∧ d < 30) :=
  ⟨by decide, time_diff_spec.2.2.2.2 parseNone [pasteEvW] copyEvW pasteEvW (by decide)⟩

end Monitoring
